import Mathlib

/-!
Shallow embedding of `src/Truely/ProcessBridge.c` (and its header
`ProcessBridge.h`): process enumeration, window-based suspicion heuristics,
and streaming SHA-256 file hashing.

The OS is modelled as an explicit environment: a process-table snapshot
(the pid slots returned by the `sysctl` query, together with oracles for
`proc_pidinfo` name resolution and `proc_pidpath` path resolution) and a
window server (available or not, holding a list of window records).
Machine `int` values are modelled as `Int`; `CGFloat` window coordinates
are modelled as `ℚ`, which supports exactly the order comparisons the code
performs on them.
-/

namespace Truely

/-- Status codes from `ProcessBridge.h` (`BridgeErrorCode`). -/
def BRIDGE_SUCCESS : Int := 0

/-- Error code for a null pointer argument. -/
def BRIDGE_ERROR_NULL_POINTER : Int := -1

/-- Error code for an invalid parameter. -/
def BRIDGE_ERROR_INVALID_PARAMETER : Int := -2

/-- Error code for a failed allocation. -/
def BRIDGE_ERROR_MEMORY_ALLOCATION : Int := -3

/-- Error code for a failed OS call. -/
def BRIDGE_ERROR_SYSTEM_CALL : Int := -4

/-- Error code for a failed file open/seek/read. -/
def BRIDGE_ERROR_FILE_ACCESS : Int := -5

/-- A window's bounds dictionary (`kCGWindowBounds`), as a `CGRect`. -/
structure CGRect where
  x : ℚ
  y : ℚ
  width : ℚ
  height : ℚ
deriving DecidableEq, Repr

/-- One window record as surfaced by `CGWindowListCopyWindowInfo`.  Every
dictionary key may be absent, hence the `Option` fields.  `onScreen`
records whether the window is in the on-screen-only subset. -/
structure Window where
  ownerPID : Option Int
  onScreen : Bool
  bounds : Option CGRect
  sharingState : Option Int
  layer : Option Int
deriving DecidableEq, Repr

/-- The window server: when unavailable (`available = false`), the
`CGWindowListCopyWindowInfo` query returns NULL. -/
structure WindowServer where
  available : Bool
  windows : List Window
deriving DecidableEq, Repr

/-- Model of `CGWindowListCopyWindowInfo`: `none` when the window server is
unavailable; otherwise the window list, filtered to on-screen windows when
the scope is `kCGWindowListOptionOnScreenOnly`. -/
def copyWindowInfo (srv : WindowServer) (onScreenOnly : Bool) : Option (List Window) :=
  if srv.available then
    some (if onScreenOnly then srv.windows.filter (fun w => w.onScreen) else srv.windows)
  else
    none

/-- `getWindowCount` (ProcessBridge.c:254): count of on-screen windows whose
`kCGWindowOwnerPID` is present and equals `pid`; 0 for `pid ≤ 0` and 0 when
the window list query returns NULL. -/
def getWindowCount (srv : WindowServer) (pid : Int) : Int :=
  if pid ≤ 0 then 0
  else
    match copyWindowInfo srv true with
    | none => 0
    | some ws => ws.foldl (fun count w => if w.ownerPID = some pid then count + 1 else count) 0

/-- Geometry-implausibility test of `detectScreenEvasion`
(ProcessBridge.c:314): off-screen or collapsed bounds. -/
def boundsSuspicious (r : CGRect) : Bool :=
  decide (r.x < -1000) || decide (r.y < -1000) ||
  decide (r.width < 1) || decide (r.height < 1) ||
  decide (r.x > 10000) || decide (r.y > 10000)

/-- Contribution of one window's bounds to the evasion score: 1 when the
bounds dictionary is present and suspicious, else 0. -/
def geometryFlag (w : Window) : Int :=
  match w.bounds with
  | some r => if boundsSuspicious r then 1 else 0
  | none => 0

/-- Contribution of one window's sharing state to the evasion score: 1 when
present and equal to `kCGWindowSharingNone = 0`, else 0. -/
def sharingFlag (w : Window) : Int :=
  match w.sharingState with
  | some s => if s = 0 then 1 else 0
  | none => 0

/-- Per-window evasion score of `detectScreenEvasion`'s loop body
(ProcessBridge.c:306): an owned window adds 1 for suspicious geometry and 1
for a capture-excluded sharing state (so a single window can add 2). -/
def windowEvasionScore (pid : Int) (w : Window) : Int :=
  if w.ownerPID = some pid then geometryFlag w + sharingFlag w else 0

/-- `detectScreenEvasion` (ProcessBridge.c:285): accumulated evasion score
over all windows (scope `kCGWindowListOptionAll`); 0 for `pid ≤ 0` and 0
when the window list query returns NULL. -/
def detectScreenEvasion (srv : WindowServer) (pid : Int) : Int :=
  if pid ≤ 0 then 0
  else
    match copyWindowInfo srv false with
    | none => 0
    | some ws => ws.foldl (fun acc w => acc + windowEvasionScore pid w) 0

/-- Test of `detectElevatedLayers`'s loop body (ProcessBridge.c:361): an
owned window whose `kCGWindowLayer` is present and greater than 2. -/
def windowElevated (pid : Int) (w : Window) : Bool :=
  decide (w.ownerPID = some pid) &&
    (match w.layer with
     | some l => decide (l > 2)
     | none => false)

/-- `detectElevatedLayers` (ProcessBridge.c:340): count of owned windows
with layer value above 2 (scope `kCGWindowListOptionAll`); 0 for `pid ≤ 0`
and 0 when the window list query returns NULL. -/
def detectElevatedLayers (srv : WindowServer) (pid : Int) : Int :=
  if pid ≤ 0 then 0
  else
    match copyWindowInfo srv false with
    | none => 0
    | some ws => ws.foldl (fun count w => if windowElevated pid w then count + 1 else count) 0

/-- The `WindowProperties` struct from `ProcessBridge.h`. -/
structure WindowProperties where
  windowCount : Int
  sharingStateDisabled : Int
  elevatedLayers : Int
  suspiciousPatterns : Int
deriving DecidableEq, Repr

/-- `getWindowProperties` (ProcessBridge.c:382), threading the caller's
struct explicitly: for `pid ≤ 0` it returns `BRIDGE_ERROR_INVALID_PARAMETER`
leaving the struct untouched; otherwise it fills the first three metrics and
zeroes `sharingStateDisabled`, then scans all windows to count
sharing-disabled owned windows — returning `BRIDGE_ERROR_SYSTEM_CALL` (with
the already-written fields) when that final window list query returns NULL. -/
def getWindowProperties (srv : WindowServer) (pid : Int) (props : WindowProperties) :
    Int × WindowProperties :=
  if pid ≤ 0 then (BRIDGE_ERROR_INVALID_PARAMETER, props)
  else
    let filled : WindowProperties :=
      { windowCount := getWindowCount srv pid
        elevatedLayers := detectElevatedLayers srv pid
        suspiciousPatterns := detectScreenEvasion srv pid
        sharingStateDisabled := 0 }
    match copyWindowInfo srv false with
    | none => (BRIDGE_ERROR_SYSTEM_CALL, filled)
    | some ws =>
        (BRIDGE_SUCCESS,
         { filled with
             sharingStateDisabled :=
               ws.foldl
                 (fun count w =>
                   if w.ownerPID = some pid ∧ w.sharingState = some 0 then count + 1 else count)
                 0 })

/-- The OS environment seen by `getAllProcesses`: the pid slots of the
`sysctl` process-table snapshot, the `proc_pidinfo` name oracle, the
`proc_pidpath` path oracle, and the window server. -/
structure OSEnv where
  procTablePids : List Int
  bsdName : Int → Option String
  exePath : Int → Option String
  windowServer : WindowServer

/-- `getProcessName` (ProcessBridge.c:122): status code together with the
final contents of the caller's (zero-initialised) name buffer. -/
def getProcessName (env : OSEnv) (pid : Int) : Int × String :=
  if pid ≤ 0 then (BRIDGE_ERROR_INVALID_PARAMETER, "")
  else
    match env.bsdName pid with
    | none => (BRIDGE_ERROR_SYSTEM_CALL, "")
    | some nm => (BRIDGE_SUCCESS, nm)

/-- `getProcessPath` (ProcessBridge.c:142): on `proc_pidpath` failure it
writes an empty string into the buffer and reports
`BRIDGE_ERROR_SYSTEM_CALL`. -/
def getProcessPath (env : OSEnv) (pid : Int) : Int × String :=
  if pid ≤ 0 then (BRIDGE_ERROR_INVALID_PARAMETER, "")
  else
    match env.exePath pid with
    | none => (BRIDGE_ERROR_SYSTEM_CALL, "")
    | some p => (BRIDGE_SUCCESS, p)

/-- The `SystemProcessInfo` struct from `ProcessBridge.h`. -/
structure SystemProcessInfo where
  pid : Int
  name : String
  path : String
  windowCount : Int
  suspiciousWindowCount : Int
  screenEvasionCount : Int
  elevatedLayerCount : Int
deriving DecidableEq, Repr

/-- One iteration of the `getAllProcesses` loop (ProcessBridge.c:85): skip
non-positive pids; drop the record when name resolution fails; otherwise
fill path (best-effort), the three window metrics, and the derived
`suspiciousWindowCount`. -/
def enrichProcess (env : OSEnv) (pid : Int) : Option SystemProcessInfo :=
  if pid ≤ 0 then none
  else if (getProcessName env pid).1 = BRIDGE_SUCCESS then
    let sec := detectScreenEvasion env.windowServer pid
    let elc := detectElevatedLayers env.windowServer pid
    some
      { pid := pid
        name := (getProcessName env pid).2
        path := (getProcessPath env pid).2
        windowCount := getWindowCount env.windowServer pid
        screenEvasionCount := sec
        elevatedLayerCount := elc
        suspiciousWindowCount := if 0 < sec ∨ 0 < elc then 1 else 0 }
  else none

/-- `getAllProcesses` (ProcessBridge.c:29), successful path: the surfaced
record collection (the C function returns its length as `valid_count`). -/
def getAllProcesses (env : OSEnv) : List SystemProcessInfo :=
  env.procTablePids.filterMap (enrichProcess env)

/-!
SHA-256: an executable model of the `CC_SHA256_*` primitives from
CommonCrypto, which implement FIPS 180-4 SHA-256.  Bytes are `Nat` values
below 256; 32-bit words are `Nat` values reduced modulo `2 ^ 32`.
-/

/-- Reduce a `Nat` to a 32-bit word. -/
def w32 (n : Nat) : Nat := n % 4294967296

/-- Bitwise complement on 32-bit words. -/
def bnot32 (x : Nat) : Nat := x ^^^ 4294967295

/-- Right rotation of a 32-bit word by `n` places (`1 ≤ n ≤ 31`). -/
def rotr32 (n x : Nat) : Nat := (x >>> n) ||| w32 (x <<< (32 - n))

/-- SHA-256 `Ch` function. -/
def shaCh (x y z : Nat) : Nat := (x &&& y) ^^^ (bnot32 x &&& z)

/-- SHA-256 `Maj` function. -/
def shaMaj (x y z : Nat) : Nat := (x &&& y) ^^^ (x &&& z) ^^^ (y &&& z)

/-- SHA-256 big Sigma-0. -/
def bigSigma0 (x : Nat) : Nat := rotr32 2 x ^^^ rotr32 13 x ^^^ rotr32 22 x

/-- SHA-256 big Sigma-1. -/
def bigSigma1 (x : Nat) : Nat := rotr32 6 x ^^^ rotr32 11 x ^^^ rotr32 25 x

/-- SHA-256 small sigma-0. -/
def smallSigma0 (x : Nat) : Nat := rotr32 7 x ^^^ rotr32 18 x ^^^ (x >>> 3)

/-- SHA-256 small sigma-1. -/
def smallSigma1 (x : Nat) : Nat := rotr32 17 x ^^^ rotr32 19 x ^^^ (x >>> 10)

/-- The 64 SHA-256 round constants (FIPS 180-4 section 4.2.2, written in
decimal). -/
def K256 : Array Nat := #[
  1116352408, 1899447441, 3049323471, 3921009573,
  961987163, 1508970993, 2453635748, 2870763221,
  3624381080, 310598401, 607225278, 1426881987,
  1925078388, 2162078206, 2614888103, 3248222580,
  3835390401, 4022224774, 264347078, 604807628,
  770255983, 1249150122, 1555081692, 1996064986,
  2554220882, 2821834349, 2952996808, 3210313671,
  3336571891, 3584528711, 113926993, 338241895,
  666307205, 773529912, 1294757372, 1396182291,
  1695183700, 1986661051, 2177026350, 2456956037,
  2730485921, 2820302411, 3259730800, 3345764771,
  3516065817, 3600352804, 4094571909, 275423344,
  430227734, 506948616, 659060556, 883997877,
  958139571, 1322822218, 1537002063, 1747873779,
  1955562222, 2024104815, 2227730452, 2361852424,
  2428436474, 2756734187, 3204031479, 3329325298]

/-- The eight-word SHA-256 working state. -/
structure Hash8 where
  a : Nat
  b : Nat
  c : Nat
  d : Nat
  e : Nat
  f : Nat
  g : Nat
  h : Nat
deriving DecidableEq, Repr

/-- The SHA-256 initial hash value (FIPS 180-4 section 5.3.3, written in
decimal). -/
def sha256InitHash : Hash8 :=
  ⟨1779033703, 3144134277, 1013904242, 2773480762,
   1359893119, 2600822924, 528734635, 1541459225⟩

/-- Group a byte list into big-endian 32-bit words (four bytes per word). -/
def toWords : List Nat → List Nat
  | b0 :: b1 :: b2 :: b3 :: rest => (((b0 * 256 + b1) * 256 + b2) * 256 + b3) :: toWords rest
  | _ => []

/-- Extend the 16 message words of one block to the 64-entry schedule. -/
def sha256Schedule (blockWords : List Nat) : Array Nat :=
  (List.range 48).foldl
    (fun arr t =>
      let i := t + 16
      arr.push (w32 (smallSigma1 arr[i - 2]! + arr[i - 7]! + smallSigma0 arr[i - 15]! +
        arr[i - 16]!)))
    blockWords.toArray

/-- One SHA-256 round. -/
def sha256Round (s : Hash8) (kt wt : Nat) : Hash8 :=
  let t1 := w32 (s.h + bigSigma1 s.e + shaCh s.e s.f s.g + kt + wt)
  let t2 := w32 (bigSigma0 s.a + shaMaj s.a s.b s.c)
  ⟨w32 (t1 + t2), s.a, s.b, s.c, w32 (s.d + t1), s.e, s.f, s.g⟩

/-- Compress one 64-byte block into the running hash state. -/
def sha256Compress (hs : Hash8) (block : List Nat) : Hash8 :=
  let w := sha256Schedule (toWords block)
  let z := (List.range 64).foldl (fun s t => sha256Round s K256[t]! w[t]!) hs
  ⟨w32 (hs.a + z.a), w32 (hs.b + z.b), w32 (hs.c + z.c), w32 (hs.d + z.d),
   w32 (hs.e + z.e), w32 (hs.f + z.f), w32 (hs.g + z.g), w32 (hs.h + z.h)⟩

/-- Render `n` as `k` big-endian bytes. -/
def bytesBE : Nat → Nat → List Nat
  | 0, _ => []
  | k + 1, n => bytesBE k (n / 256) ++ [n % 256]

/-- Split a list into chunks of `n` elements (fuel-driven so that it
reduces structurally; the fuel is the list length). -/
def chunksOfFuel (n : Nat) : Nat → List Nat → List (List Nat)
  | 0, _ => []
  | _ + 1, [] => []
  | fuel + 1, x :: xs => (x :: xs).take n :: chunksOfFuel n fuel ((x :: xs).drop n)

/-- Split a list into chunks of `n` elements (`n > 0`; the last chunk may
be shorter). -/
def chunksOf (n : Nat) (l : List Nat) : List (List Nat) :=
  chunksOfFuel n l.length l

/-- FIPS 180-4 padding: append `0x80`, zero bytes up to 56 mod 64, then the
bit length as eight big-endian bytes. -/
def padMessage (m : List Nat) : List Nat :=
  let L := m.length
  m ++ 0x80 :: List.replicate ((119 - L % 64) % 64) 0 ++ bytesBE 8 (L * 8)

/-- The 32-byte SHA-256 digest of a byte list: the final eight state words
rendered as big-endian bytes. -/
def sha256Digest (m : List Nat) : List Nat :=
  let hs := (chunksOf 64 (padMessage m)).foldl sha256Compress sha256InitHash
  [hs.a, hs.b, hs.c, hs.d, hs.e, hs.f, hs.g, hs.h].flatMap (bytesBE 4)

/-!
The `CC_SHA256_CTX` streaming interface.  `CC_SHA256_Update` accumulates
the bytes fed so far; `CC_SHA256_Final` pads and compresses them.  This is
the functional contract of CommonCrypto's incremental interface: the digest
it produces depends only on the concatenation of all updates.
-/

/-- `CC_SHA256_Init`: the context starts with no bytes accumulated. -/
def CC_SHA256_Init : List Nat := []

/-- `CC_SHA256_Update`: feed one chunk into the context. -/
def CC_SHA256_Update (ctx chunk : List Nat) : List Nat := ctx ++ chunk

/-- `CC_SHA256_Final`: produce the 32-byte digest of the accumulated bytes. -/
def CC_SHA256_Final (ctx : List Nat) : List Nat := sha256Digest ctx

/-- Hex digit character for `n < 16`, lowercase (as printed by `%02x`). -/
def hexDigitChar (n : Nat) : Char :=
  if n < 10 then Char.ofNat (48 + n) else Char.ofNat (87 + n)

/-- The two lowercase hex characters `%02x` prints for a byte. -/
def byteToHex (b : Nat) : List Char :=
  [hexDigitChar (b / 16), hexDigitChar (b % 16)]

/-- Render a digest as the hex string the loop at ProcessBridge.c:241
writes into the caller's buffer. -/
def digestToHexString (digest : List Nat) : String :=
  String.mk (digest.flatMap byteToHex)

/-- SHA-256 of a byte list, rendered as a 64-character lowercase hex
string. -/
def sha256HexString (m : List Nat) : String :=
  digestToHexString (sha256Digest m)

/-- The 63-character digest string the specification document states for
the empty file (its final character is missing). -/
def specEmptyFileDigest : String :=
  "e3b0c44298fc1c149afbf4c8996fb92427ae41e4649b934ca495991b7852b85"

/-- A file system: maps a path to the byte content of the file, or `none`
when the file is missing/unopenable. -/
structure FileSystem where
  contents : String → Option (List Nat)

/-- `calculateFileSHA256` (ProcessBridge.c:169): status code together with
the digest written into the caller's buffer (`none` when the buffer is left
untouched).  Argument checks mirror the C code in order: buffer capacity
below 65, then empty path, then file open; the content is streamed through
the `CC_SHA256` context in 4096-byte chunks. -/
def calculateFileSHA256 (fs : FileSystem) (filePath : String) (hashStringSize : Nat) :
    Int × Option String :=
  if hashStringSize < 65 then (BRIDGE_ERROR_INVALID_PARAMETER, none)
  else if filePath.length = 0 then (BRIDGE_ERROR_INVALID_PARAMETER, none)
  else
    match fs.contents filePath with
    | none => (BRIDGE_ERROR_FILE_ACCESS, none)
    | some content =>
        let ctx := (chunksOf 4096 content).foldl CC_SHA256_Update CC_SHA256_Init
        (BRIDGE_SUCCESS, some (digestToHexString (CC_SHA256_Final ctx)))

/-- Lowercase-hex-digit test on a character (`0`-`9` or `a`-`f`). -/
def isLowerHexDigit (c : Char) : Bool :=
  (decide (48 ≤ c.toNat) && decide (c.toNat ≤ 57)) ||
  (decide (97 ≤ c.toNat) && decide (c.toNat ≤ 102))

/-!
Concrete inputs used by the witness theorems.
-/

/-- A window parked far off-screen, owned by pid 7, still capturable. -/
def wOffScreen : Window :=
  { ownerPID := some 7, onScreen := true, bounds := some ⟨-2000, -2000, 100, 100⟩,
    sharingState := some 1, layer := some 0 }

/-- The same off-screen window, additionally excluded from capture. -/
def wOffScreenNoCapture : Window :=
  { wOffScreen with sharingState := some 0 }

/-- An ordinary on-screen window owned by pid 7 at layer 0. -/
def wNormal : Window :=
  { ownerPID := some 7, onScreen := true, bounds := some ⟨10, 10, 800, 600⟩,
    sharingState := some 1, layer := some 0 }

/-- An overlay window owned by pid 7 at layer 3. -/
def wOverlay : Window :=
  { wNormal with layer := some 3 }

/-- An available window server holding the four sample windows. -/
def srvSample : WindowServer :=
  ⟨true, [wNormal, wOffScreen, wOffScreenNoCapture, wOverlay]⟩

/-- An unavailable window server. -/
def srvDown : WindowServer := ⟨false, [wNormal]⟩

/-- A sample OS environment: pid 7 resolves a name but no path, pid 3 fails
name resolution, and a kernel slot 0 is present. -/
def envSample : OSEnv :=
  { procTablePids := [0, 3, 7]
    bsdName := fun p => if p = 7 then some "demo" else none
    exePath := fun _ => none
    windowServer := srvSample }

/-- A sample file system: `a` and `b` hold the same three bytes, `e` is
empty, everything else is missing. -/
def fsSample : FileSystem :=
  ⟨fun p => if p = "a" ∨ p = "b" then some [0, 1, 255] else if p = "e" then some [] else none⟩

/-!
Helper lemmas about the folds the window scans use.
-/

/-- A fold by a pointwise-increasing function never drops below its
accumulator. -/
theorem le_foldl_of_le {α : Type} (f : Int → α → Int) (hf : ∀ c x, c ≤ f c x) (l : List α) :
    ∀ acc : Int, acc ≤ List.foldl f acc l := by
  induction l with
  | nil => intro acc; simp
  | cons x xs ih =>
      intro acc
      rw [List.foldl_cons]
      exact le_trans (hf acc x) (ih (f acc x))

/-- Accumulating a per-element score is summing over the list. -/
theorem foldl_add_map_sum {α : Type} (g : α → Int) (l : List α) :
    ∀ acc : Int, List.foldl (fun a x => a + g x) acc l = acc + (l.map g).sum := by
  induction l with
  | nil => intro acc; simp
  | cons x xs ih =>
      intro acc
      rw [List.foldl_cons, ih]
      simp [add_assoc]

/-- Conditionally counting elements is taking the length of a filter. -/
theorem foldl_ite_count {α : Type} (p : α → Prop) [DecidablePred p] (l : List α) :
    ∀ acc : Int,
      List.foldl (fun c x => if p x then c + 1 else c) acc l
        = acc + (((l.filter fun x => decide (p x)).length : Nat) : Int) := by
  induction l with
  | nil => intro acc; simp
  | cons x xs ih =>
      intro acc
      rw [List.foldl_cons, ih]
      by_cases h : p x
      · simp only [h, if_true, List.filter_cons, decide_eq_true_eq, List.length_cons]
        push_cast
        ring
      · simp [h, List.filter_cons]

/-- The per-window evasion score is never negative. -/
theorem windowEvasionScore_nonneg (pid : Int) (w : Window) : 0 ≤ windowEvasionScore pid w := by
  have hg : 0 ≤ geometryFlag w := by
    unfold geometryFlag; split
    · split <;> omega
    · omega
  have hs : 0 ≤ sharingFlag w := by
    unfold sharingFlag; split
    · split <;> omega
    · omega
  unfold windowEvasionScore
  split
  · omega
  · omega

/-- `getWindowCount` never returns a negative value. -/
theorem getWindowCount_nonneg (srv : WindowServer) (pid : Int) : 0 ≤ getWindowCount srv pid := by
  unfold getWindowCount
  split
  · omega
  · split
    · omega
    · exact le_foldl_of_le _ (fun c w => by split <;> omega) _ 0

/-- `detectScreenEvasion` never returns a negative value. -/
theorem detectScreenEvasion_nonneg (srv : WindowServer) (pid : Int) :
    0 ≤ detectScreenEvasion srv pid := by
  unfold detectScreenEvasion
  split
  · omega
  · split
    · omega
    · exact le_foldl_of_le _
        (fun c w => by have := windowEvasionScore_nonneg pid w; omega) _ 0

/-- `detectElevatedLayers` never returns a negative value. -/
theorem detectElevatedLayers_nonneg (srv : WindowServer) (pid : Int) :
    0 ≤ detectElevatedLayers srv pid := by
  unfold detectElevatedLayers
  split
  · omega
  · split
    · omega
    · exact le_foldl_of_le _ (fun c w => by split <;> omega) _ 0

/-- Characterisation of a surfaced record: it comes from a positive pid
whose name resolved, and its fields are exactly what the loop body wrote. -/
theorem enrichProcess_eq_some {env : OSEnv} {pid : Int} {info : SystemProcessInfo}
    (h : enrichProcess env pid = some info) :
    0 < pid ∧ info.pid = pid ∧ env.bsdName pid = some info.name ∧
    info.path = (getProcessPath env pid).2 ∧
    info.windowCount = getWindowCount env.windowServer pid ∧
    info.screenEvasionCount = detectScreenEvasion env.windowServer pid ∧
    info.elevatedLayerCount = detectElevatedLayers env.windowServer pid ∧
    info.suspiciousWindowCount =
      (if 0 < info.screenEvasionCount ∨ 0 < info.elevatedLayerCount then 1 else 0) := by
  by_cases hp : pid ≤ 0
  · simp [enrichProcess, hp] at h
  · cases hnm : env.bsdName pid with
    | none =>
        simp [enrichProcess, hp, getProcessName, hnm, BRIDGE_ERROR_SYSTEM_CALL,
          BRIDGE_SUCCESS] at h
    | some nm =>
        rw [enrichProcess, if_neg hp] at h
        simp only [getProcessName, if_neg hp, hnm, BRIDGE_SUCCESS, if_pos rfl] at h
        obtain rfl := (Option.some.injEq _ _).mp h.symm
        exact ⟨by omega, rfl, rfl, rfl, rfl, rfl, rfl, rfl⟩

/-- C1: every record in a successful enumeration has a positive pid,
nonnegative window metrics, and a suspicious-window flag in {0, 1}. -/
theorem getAllProcesses_record_invariants (env : OSEnv) (info : SystemProcessInfo)
    (h : info ∈ getAllProcesses env) :
    0 < info.pid ∧ 0 ≤ info.windowCount ∧ 0 ≤ info.screenEvasionCount ∧
    0 ≤ info.elevatedLayerCount ∧
    (info.suspiciousWindowCount = 0 ∨ info.suspiciousWindowCount = 1) := by
  rw [getAllProcesses] at h
  obtain ⟨pid, hmem, he⟩ := List.mem_filterMap.mp h
  obtain ⟨hp, hpid, -, -, hwc, hsec, helc, hsusp⟩ := enrichProcess_eq_some he
  refine ⟨hpid ▸ hp, hwc ▸ getWindowCount_nonneg _ _, hsec ▸ detectScreenEvasion_nonneg _ _,
    helc ▸ detectElevatedLayers_nonneg _ _, ?_⟩
  rw [hsusp]
  split
  · right; rfl
  · left; rfl

/-- C2: for every surfaced record, the suspicious-window flag is 1 exactly
when the evasion or elevation count is positive, and 0 otherwise. -/
theorem suspiciousWindowCount_policy (env : OSEnv) (info : SystemProcessInfo)
    (h : info ∈ getAllProcesses env) :
    (info.suspiciousWindowCount = 1 ↔
      (0 < info.screenEvasionCount ∨ 0 < info.elevatedLayerCount)) ∧
    (¬(0 < info.screenEvasionCount ∨ 0 < info.elevatedLayerCount) →
      info.suspiciousWindowCount = 0) := by
  rw [getAllProcesses] at h
  obtain ⟨pid, hmem, he⟩ := List.mem_filterMap.mp h
  obtain ⟨-, -, -, -, -, -, -, hsusp⟩ := enrichProcess_eq_some he
  constructor
  · rw [hsusp]
    by_cases hc : 0 < info.screenEvasionCount ∨ 0 < info.elevatedLayerCount
    · simp [hc]
    · simp [hc]
  · intro hc
    rw [hsusp, if_neg hc]

/-- C7: name resolution failure drops the record from the enumeration;
path resolution failure keeps the record with an empty path; and every
surfaced record carries a successfully resolved name. -/
theorem enumeration_name_required_path_optional (env : OSEnv) (pid : Int) (hpid : 0 < pid) :
    (env.bsdName pid = none → enrichProcess env pid = none) ∧
    (∀ nm, env.bsdName pid = some nm → env.exePath pid = none →
      enrichProcess env pid = some
        { pid := pid, name := nm, path := ""
          windowCount := getWindowCount env.windowServer pid
          screenEvasionCount := detectScreenEvasion env.windowServer pid
          elevatedLayerCount := detectElevatedLayers env.windowServer pid
          suspiciousWindowCount :=
            if 0 < detectScreenEvasion env.windowServer pid ∨
               0 < detectElevatedLayers env.windowServer pid then 1 else 0 }) ∧
    (∀ info, info ∈ getAllProcesses env → env.bsdName info.pid = some info.name) := by
  have hp : ¬ pid ≤ 0 := by omega
  refine ⟨?_, ?_, ?_⟩
  · intro hnm
    simp [enrichProcess, hp, getProcessName, hnm, BRIDGE_ERROR_SYSTEM_CALL, BRIDGE_SUCCESS]
  · intro nm hnm hpath
    simp [enrichProcess, hp, getProcessName, getProcessPath, hnm, hpath, BRIDGE_SUCCESS]
  · intro info hm
    rw [getAllProcesses] at hm
    obtain ⟨q, hq, he⟩ := List.mem_filterMap.mp hm
    obtain ⟨-, hqpid, hnm, -, -, -, -, -⟩ := enrichProcess_eq_some he
    rw [hqpid]
    exact hnm

/-- C10: for a non-positive pid the three window metrics silently return 0
while `getWindowProperties` reports `BRIDGE_ERROR_INVALID_PARAMETER`,
leaving the caller's struct untouched. -/
theorem nonpositive_pid_results (srv : WindowServer) (pid : Int) (hpid : pid ≤ 0)
    (props : WindowProperties) :
    getWindowCount srv pid = 0 ∧ detectScreenEvasion srv pid = 0 ∧
    detectElevatedLayers srv pid = 0 ∧
    getWindowProperties srv pid props = (BRIDGE_ERROR_INVALID_PARAMETER, props) := by
  refine ⟨?_, ?_, ?_, ?_⟩ <;>
    simp [getWindowCount, detectScreenEvasion, detectElevatedLayers, getWindowProperties, hpid]

/-- C8 counterexample: with the window server unavailable,
`getWindowProperties` on a valid pid returns `BRIDGE_ERROR_SYSTEM_CALL`,
which is an error status, not a success with empty counts. -/
theorem getWindowProperties_unavailable_is_error :
    (getWindowProperties srvDown 1 ⟨0, 0, 0, 0⟩).1 = BRIDGE_ERROR_SYSTEM_CALL ∧
    BRIDGE_ERROR_SYSTEM_CALL ≠ BRIDGE_SUCCESS := by
  constructor
  · rfl
  · decide

/-- C8 (amended): when the window server is unavailable, `getWindowCount`,
`detectScreenEvasion` and `detectElevatedLayers` return 0 (not an error),
while `getWindowProperties` returns `BRIDGE_ERROR_SYSTEM_CALL` with every
count field it wrote equal to 0. -/
theorem windowServer_unavailable_results (srv : WindowServer) (hsrv : srv.available = false)
    (pid : Int) (props : WindowProperties) :
    getWindowCount srv pid = 0 ∧ detectScreenEvasion srv pid = 0 ∧
    detectElevatedLayers srv pid = 0 ∧
    (0 < pid →
      getWindowProperties srv pid props =
        (BRIDGE_ERROR_SYSTEM_CALL,
         { windowCount := 0, sharingStateDisabled := 0, elevatedLayers := 0,
           suspiciousPatterns := 0 })) := by
  have hcw : ∀ b, copyWindowInfo srv b = none := by
    intro b
    simp [copyWindowInfo, hsrv]
  have h1 : getWindowCount srv pid = 0 := by
    unfold getWindowCount
    split
    · rfl
    · rw [hcw]
  have h2 : detectScreenEvasion srv pid = 0 := by
    unfold detectScreenEvasion
    split
    · rfl
    · rw [hcw]
  have h3 : detectElevatedLayers srv pid = 0 := by
    unfold detectElevatedLayers
    split
    · rfl
    · rw [hcw]
  refine ⟨h1, h2, h3, ?_⟩
  intro hp
  have hp2 : ¬ pid ≤ 0 := by omega
  simp [getWindowProperties, hp2, hcw, h1, h2, h3]

/-- C9: a missing or unopenable file makes `calculateFileSHA256` report
`BRIDGE_ERROR_FILE_ACCESS` without writing anything into the digest
buffer. -/
theorem calculateFileSHA256_missing_file (fs : FileSystem) (p : String) (sz : Nat)
    (hsz : 65 ≤ sz) (hp : p.length ≠ 0) (hf : fs.contents p = none) :
    calculateFileSHA256 fs p sz = (BRIDGE_ERROR_FILE_ACCESS, none) := by
  have h1 : ¬ sz < 65 := by omega
  simp [calculateFileSHA256, h1, hp, hf]

/-- The Bool geometry test holds exactly on the disjunction of the six
implausibility conditions. -/
theorem boundsSuspicious_iff (r : CGRect) :
    boundsSuspicious r = true ↔
      (r.x < -1000 ∨ r.y < -1000 ∨ r.width < 1 ∨ r.height < 1 ∨
       r.x > 10000 ∨ r.y > 10000) := by
  simp [boundsSuspicious, Bool.or_eq_true, decide_eq_true_eq, or_assoc]

/-- C3: with the window server available, `detectScreenEvasion` totals the
per-window scores over the full window list; an owned window contributes
its geometry flag plus its sharing flag (one window can contribute 2); the
geometry flag is 1 exactly on the listed implausibility conditions; the
sharing flag is 1 exactly on sharing state 0; and a window at origin
(-2000,-2000) with size (100,100) scores 1 when its sharing flag is 0 and
2 when it is capture-excluded. -/
theorem detectScreenEvasion_scoring (srv : WindowServer) (pid : Int) (hpid : 0 < pid)
    (hav : srv.available = true) :
    detectScreenEvasion srv pid = (srv.windows.map (windowEvasionScore pid)).sum ∧
    (∀ w, w.ownerPID = some pid →
      windowEvasionScore pid w = geometryFlag w + sharingFlag w) ∧
    (∀ w r, w.bounds = some r →
      geometryFlag w =
        (if r.x < -1000 ∨ r.y < -1000 ∨ r.width < 1 ∨ r.height < 1 ∨
            r.x > 10000 ∨ r.y > 10000 then 1 else 0)) ∧
    (∀ w s, w.sharingState = some s → sharingFlag w = (if s = 0 then 1 else 0)) ∧
    (∀ w, w.ownerPID = some pid → w.bounds = some ⟨-2000, -2000, 100, 100⟩ →
      (sharingFlag w = 0 → windowEvasionScore pid w = 1) ∧
      (w.sharingState = some 0 → windowEvasionScore pid w = 2)) := by
  refine ⟨?_, ?_, ?_, ?_, ?_⟩
  · unfold detectScreenEvasion
    rw [if_neg (by omega)]
    rw [show copyWindowInfo srv false = some srv.windows from by simp [copyWindowInfo, hav]]
    simpa using foldl_add_map_sum (windowEvasionScore pid) srv.windows 0
  · intro w hw
    unfold windowEvasionScore
    rw [if_pos hw]
  · intro w r hr
    simp only [geometryFlag, hr]
    by_cases hb : r.x < -1000 ∨ r.y < -1000 ∨ r.width < 1 ∨ r.height < 1 ∨
        r.x > 10000 ∨ r.y > 10000
    · rw [if_pos ((boundsSuspicious_iff r).mpr hb), if_pos hb]
    · rw [if_neg (fun hc => hb ((boundsSuspicious_iff r).mp hc)), if_neg hb]
  · intro w s hs
    simp only [sharingFlag, hs]
  · intro w hw hb
    have hg : geometryFlag w = 1 := by
      simp only [geometryFlag, hb]
      decide
    constructor
    · intro hs
      unfold windowEvasionScore
      rw [if_pos hw, hg, hs]
      decide
    · intro hs
      have hsf : sharingFlag w = 1 := by
        simp only [sharingFlag, hs]
        decide
      unfold windowEvasionScore
      rw [if_pos hw, hg, hsf]
      decide

/-- C4: with the window server available, `detectElevatedLayers` counts
exactly the owned windows whose layer value exceeds 2; an owned layer-3
window passes the test and an owned layer-1 window does not; appending a
passing window increments the result by 1, a failing one leaves it
unchanged. -/
theorem detectElevatedLayers_counting (srv : WindowServer) (pid : Int) (hpid : 0 < pid)
    (hav : srv.available = true) :
    detectElevatedLayers srv pid = ((srv.windows.filter (windowElevated pid)).length : Int) ∧
    (∀ w, w.ownerPID = some pid →
      (w.layer = some 3 → windowElevated pid w = true) ∧
      (w.layer = some 1 → windowElevated pid w = false)) ∧
    (∀ ws w, windowElevated pid w = true →
      detectElevatedLayers ⟨true, ws ++ [w]⟩ pid = detectElevatedLayers ⟨true, ws⟩ pid + 1) ∧
    (∀ ws w, windowElevated pid w = false →
      detectElevatedLayers ⟨true, ws ++ [w]⟩ pid = detectElevatedLayers ⟨true, ws⟩ pid) := by
  have hchar : ∀ l : List Window,
      detectElevatedLayers ⟨true, l⟩ pid = ((l.filter (windowElevated pid)).length : Int) := by
    intro l
    unfold detectElevatedLayers
    rw [if_neg (by omega)]
    simp only [show copyWindowInfo ⟨true, l⟩ false = some l from by simp [copyWindowInfo]]
    rw [foldl_ite_count (fun w => windowElevated pid w = true) l 0]
    simp
  refine ⟨?_, ?_, ?_, ?_⟩
  · obtain ⟨av, ws⟩ := srv
    cases hav
    exact hchar ws
  · intro w hw
    constructor
    · intro h3
      simp [windowElevated, hw, h3]
    · intro h1
      simp [windowElevated, hw, h1]
  · intro ws w hwe
    rw [hchar, hchar, List.filter_append]
    simp [List.filter_cons, hwe]
  · intro ws w hwe
    rw [hchar, hchar, List.filter_append]
    simp [List.filter_cons, hwe]

/-!
Witness instantiations of the theorems above at concrete inputs.
-/

/-- The record `getAllProcesses` surfaces for pid 7 of `envSample`. -/
def infoSample : SystemProcessInfo :=
  { pid := 7, name := "demo", path := "", windowCount := 4, suspiciousWindowCount := 1,
    screenEvasionCount := 3, elevatedLayerCount := 1 }

/-- A copy of the normal window at layer 1. -/
def wLayer1 : Window := { wNormal with layer := some 1 }

/-- Witness for C1 at the sample environment. -/
theorem getAllProcesses_record_invariants_witness :
    0 < infoSample.pid ∧ 0 ≤ infoSample.windowCount ∧ 0 ≤ infoSample.screenEvasionCount ∧
    0 ≤ infoSample.elevatedLayerCount ∧
    (infoSample.suspiciousWindowCount = 0 ∨ infoSample.suspiciousWindowCount = 1) :=
  getAllProcesses_record_invariants envSample infoSample (by decide)

/-- Witness for C2 at the sample environment. -/
theorem suspiciousWindowCount_policy_witness :
    (infoSample.suspiciousWindowCount = 1 ↔
      (0 < infoSample.screenEvasionCount ∨ 0 < infoSample.elevatedLayerCount)) ∧
    (¬(0 < infoSample.screenEvasionCount ∨ 0 < infoSample.elevatedLayerCount) →
      infoSample.suspiciousWindowCount = 0) :=
  suspiciousWindowCount_policy envSample infoSample (by decide)

/-- Witness for C3 at the sample window server. -/
theorem detectScreenEvasion_scoring_witness :
    detectScreenEvasion srvSample 7 = (srvSample.windows.map (windowEvasionScore 7)).sum ∧
    windowEvasionScore 7 wOffScreen = 1 ∧
    windowEvasionScore 7 wOffScreenNoCapture = 2 ∧
    detectScreenEvasion srvSample 7 = 3 := by
  have h := detectScreenEvasion_scoring srvSample 7 (by decide) rfl
  exact ⟨h.1, (h.2.2.2.2 wOffScreen rfl rfl).1 (by decide),
    (h.2.2.2.2 wOffScreenNoCapture rfl rfl).2 rfl, by decide⟩

/-- Witness for C4 at the sample window server. -/
theorem detectElevatedLayers_counting_witness :
    detectElevatedLayers srvSample 7 = ((srvSample.windows.filter (windowElevated 7)).length : Int) ∧
    windowElevated 7 wOverlay = true ∧
    windowElevated 7 wLayer1 = false ∧
    detectElevatedLayers ⟨true, [wNormal] ++ [wOverlay]⟩ 7 =
      detectElevatedLayers ⟨true, [wNormal]⟩ 7 + 1 ∧
    detectElevatedLayers srvSample 7 = 1 := by
  have h := detectElevatedLayers_counting srvSample 7 (by decide) rfl
  exact ⟨h.1, (h.2.1 wOverlay rfl).1 rfl, (h.2.1 wLayer1 rfl).2 rfl,
    h.2.2.1 [wNormal] wOverlay (by decide), by decide⟩

/-- Witness for C7 at the sample environment: pid 3 (name unresolvable) is
dropped, pid 7 (path unresolvable) is surfaced with an empty path. -/
theorem enumeration_name_required_path_optional_witness :
    enrichProcess envSample 3 = none ∧ enrichProcess envSample 7 = some infoSample :=
  ⟨(enumeration_name_required_path_optional envSample 3 (by decide)).1 rfl,
   ((enumeration_name_required_path_optional envSample 7 (by decide)).2.1 "demo" rfl rfl).trans
     (by decide)⟩

/-- Witness for the amended C8 at an unavailable window server. -/
theorem windowServer_unavailable_results_witness :
    getWindowCount srvDown 7 = 0 ∧ detectScreenEvasion srvDown 7 = 0 ∧
    detectElevatedLayers srvDown 7 = 0 ∧
    (0 < (7 : Int) →
      getWindowProperties srvDown 7 ⟨1, 2, 3, 4⟩ =
        (BRIDGE_ERROR_SYSTEM_CALL,
         { windowCount := 0, sharingStateDisabled := 0, elevatedLayers := 0,
           suspiciousPatterns := 0 })) :=
  windowServer_unavailable_results srvDown rfl 7 ⟨1, 2, 3, 4⟩

/-- Witness for C9 at a path the sample file system does not contain. -/
theorem calculateFileSHA256_missing_file_witness :
    calculateFileSHA256 fsSample "missing" 65 = (BRIDGE_ERROR_FILE_ACCESS, none) :=
  calculateFileSHA256_missing_file fsSample "missing" 65 (by decide) (by decide) (by decide)

/-- Witness for C10 at pid 0 against the sample window server. -/
theorem nonpositive_pid_results_witness :
    getWindowCount srvSample 0 = 0 ∧ detectScreenEvasion srvSample 0 = 0 ∧
    detectElevatedLayers srvSample 0 = 0 ∧
    getWindowProperties srvSample 0 ⟨5, 6, 7, 8⟩ = (BRIDGE_ERROR_INVALID_PARAMETER, ⟨5, 6, 7, 8⟩) :=
  nonpositive_pid_results srvSample 0 (by decide) ⟨5, 6, 7, 8⟩

/-!
Lemmas about the hash pipeline.
-/

/-- `bytesBE k` always renders exactly `k` bytes. -/
theorem bytesBE_length (k : Nat) : ∀ n, (bytesBE k n).length = k := by
  induction k with
  | zero => intro n; rfl
  | succ k ih => intro n; simp [bytesBE, ih]

/-- Every byte rendered by `bytesBE` is below 256. -/
theorem bytesBE_mem_lt (k : Nat) : ∀ n, ∀ b ∈ bytesBE k n, b < 256 := by
  induction k with
  | zero =>
      intro n b hb
      simp [bytesBE] at hb
  | succ k ih =>
      intro n b hb
      simp only [bytesBE, List.mem_append, List.mem_singleton] at hb
      rcases hb with hb | hb
      · exact ih _ b hb
      · subst hb
        exact Nat.mod_lt _ (by omega)

/-- A SHA-256 digest holds exactly 32 bytes. -/
theorem sha256Digest_length (m : List Nat) : (sha256Digest m).length = 32 := by
  unfold sha256Digest
  simp [bytesBE_length]

/-- Every byte of a SHA-256 digest is below 256. -/
theorem sha256Digest_mem_lt (m : List Nat) : ∀ b ∈ sha256Digest m, b < 256 := by
  unfold sha256Digest
  intro b hb
  simp only [List.mem_flatMap] at hb
  obtain ⟨w, -, hbw⟩ := hb
  exact bytesBE_mem_lt 4 w b hbw

/-- Each hex digit character for a value below 16 is a lowercase hex
character. -/
theorem isLowerHexDigit_hexDigitChar : ∀ n, n < 16 → isLowerHexDigit (hexDigitChar n) = true := by
  decide

/-- Both characters `%02x` prints for a byte below 256 are lowercase hex
characters. -/
theorem byteToHex_chars (b : Nat) (hb : b < 256) : ∀ c ∈ byteToHex b, isLowerHexDigit c = true := by
  intro c hc
  simp only [byteToHex, List.mem_cons, List.not_mem_nil, or_false] at hc
  rcases hc with rfl | rfl
  · exact isLowerHexDigit_hexDigitChar _ (by omega)
  · exact isLowerHexDigit_hexDigitChar _ (by omega)

/-- Hex rendering doubles the length of a byte list. -/
theorem flatMap_byteToHex_length (l : List Nat) : (l.flatMap byteToHex).length = 2 * l.length := by
  induction l with
  | nil => rfl
  | cons x xs ih =>
      simp only [List.flatMap_cons, List.length_append, ih, byteToHex]
      simp
      omega

/-- The rendered SHA-256 hex string has exactly 64 characters, all of them
lowercase hex digits. -/
theorem sha256HexString_format (m : List Nat) :
    (sha256HexString m).length = 64 ∧ (sha256HexString m).data.all isLowerHexDigit = true := by
  constructor
  · show ((sha256Digest m).flatMap byteToHex).length = 64
    rw [flatMap_byteToHex_length, sha256Digest_length]
  · show ((sha256Digest m).flatMap byteToHex).all isLowerHexDigit = true
    rw [List.all_eq_true]
    intro c hc
    rw [List.mem_flatMap] at hc
    obtain ⟨b, hb, hcb⟩ := hc
    exact byteToHex_chars b (sha256Digest_mem_lt m b hb) c hcb

/-- Folding the streaming update over a chunk list accumulates their
concatenation. -/
theorem foldl_update_app (ls : List (List Nat)) :
    ∀ acc : List Nat, ls.foldl CC_SHA256_Update acc = acc ++ ls.flatten := by
  induction ls with
  | nil => intro acc; simp
  | cons x xs ih =>
      intro acc
      rw [List.foldl_cons]
      rw [ih]
      simp [CC_SHA256_Update]

/-- With positive chunk size and enough fuel, re-joining the chunks gives
back the original list. -/
theorem chunksOfFuel_flatten (n : Nat) (hn : 0 < n) :
    ∀ (fuel : Nat) (l : List Nat), l.length ≤ fuel → (chunksOfFuel n fuel l).flatten = l := by
  intro fuel
  induction fuel with
  | zero =>
      intro l hl
      have h0 : l = [] := List.length_eq_zero.mp (by omega)
      subst h0
      rfl
  | succ fuel ih =>
      intro l hl
      cases l with
      | nil => rfl
      | cons x xs =>
          simp only [chunksOfFuel, List.flatten_cons]
          rw [ih ((x :: xs).drop n)
            (by simp only [List.length_drop, List.length_cons] at *; omega)]
          exact List.take_append_drop n (x :: xs)

/-- Re-joining `chunksOf n l` for positive `n` gives back `l`. -/
theorem chunksOf_flatten (n : Nat) (hn : 0 < n) (l : List Nat) : (chunksOf n l).flatten = l :=
  chunksOfFuel_flatten n hn l.length l le_rfl

/-- On the successful path, `calculateFileSHA256` writes exactly the
SHA-256 hex string of the file's bytes: streaming the 4096-byte chunks
through the context digests their concatenation. -/
theorem calculateFileSHA256_success (fs : FileSystem) (p : String) (sz : Nat) (c : List Nat)
    (hc : fs.contents p = some c) (hsz : 65 ≤ sz) (hp : p.length ≠ 0) :
    calculateFileSHA256 fs p sz = (BRIDGE_SUCCESS, some (sha256HexString c)) := by
  have hlt : ¬ sz < 65 := by omega
  have hstream : (chunksOf 4096 c).foldl CC_SHA256_Update CC_SHA256_Init = c := by
    rw [foldl_update_app (chunksOf 4096 c) CC_SHA256_Init]
    show [] ++ _ = _
    rw [List.nil_append]
    exact chunksOf_flatten 4096 (by omega) c
  simp only [calculateFileSHA256, if_neg hlt, if_neg hp, hc, hstream]
  rfl

set_option maxRecDepth 200000 in
/-- C5 counterexample: hashing an empty file succeeds but the digest
written is not the 63-character string stated by the specification. -/
theorem sha256_empty_spec_string_mismatch :
    (calculateFileSHA256 fsSample "e" 65).2 ≠ some specEmptyFileDigest ∧
    specEmptyFileDigest.length = 63 := by
  constructor
  · decide
  · decide

set_option maxRecDepth 200000 in
/-- C5 (amended): every digest a successful hash computation writes has
exactly 64 characters, all lowercase hex, and hashing an empty file yields
`e3b0c44298fc1c149afbf4c8996fb92427ae41e4649b934ca495991b7852b855`. -/
theorem calculateFileSHA256_digest_format :
    (∀ fs p sz d, (calculateFileSHA256 fs p sz).2 = some d →
      d.length = 64 ∧ d.data.all isLowerHexDigit = true) ∧
    (∀ fs p sz, 65 ≤ sz → p.length ≠ 0 → fs.contents p = some [] →
      calculateFileSHA256 fs p sz =
        (BRIDGE_SUCCESS,
         some "e3b0c44298fc1c149afbf4c8996fb92427ae41e4649b934ca495991b7852b855")) := by
  constructor
  · intro fs p sz d hd
    by_cases h1 : sz < 65
    · simp [calculateFileSHA256, h1] at hd
    · by_cases h2 : p.length = 0
      · simp [calculateFileSHA256, h1, h2] at hd
      · cases hcont : fs.contents p with
        | none => simp [calculateFileSHA256, h1, h2, hcont] at hd
        | some content =>
            have hs := calculateFileSHA256_success fs p sz content hcont (by omega) h2
            rw [hs] at hd
            obtain rfl := (Option.some.injEq _ _).mp hd
            exact sha256HexString_format content
  · intro fs p sz hsz hp hc
    rw [calculateFileSHA256_success fs p sz [] hc hsz hp]
    decide

/-- Witness for the amended C5: hashing the empty file of the sample file
system yields the corrected 64-character digest. -/
theorem calculateFileSHA256_digest_format_witness :
    calculateFileSHA256 fsSample "e" 65 =
      (BRIDGE_SUCCESS,
       some "e3b0c44298fc1c149afbf4c8996fb92427ae41e4649b934ca495991b7852b855") :=
  calculateFileSHA256_digest_format.2 fsSample "e" 65 (by decide) (by decide) (by decide)

/-- C6: the hash is deterministic and content-addressable — any two files
with identical byte content hash to the same 64-character digest, namely
the SHA-256 hex string of that content. -/
theorem calculateFileSHA256_deterministic (fs1 fs2 : FileSystem) (p1 p2 : String)
    (sz1 sz2 : Nat) (c : List Nat)
    (h1 : fs1.contents p1 = some c) (h2 : fs2.contents p2 = some c)
    (hsz1 : 65 ≤ sz1) (hsz2 : 65 ≤ sz2) (hp1 : p1.length ≠ 0) (hp2 : p2.length ≠ 0) :
    calculateFileSHA256 fs1 p1 sz1 = calculateFileSHA256 fs2 p2 sz2 ∧
    calculateFileSHA256 fs1 p1 sz1 = (BRIDGE_SUCCESS, some (sha256HexString c)) ∧
    (sha256HexString c).length = 64 :=
  ⟨(calculateFileSHA256_success fs1 p1 sz1 c h1 hsz1 hp1).trans
      (calculateFileSHA256_success fs2 p2 sz2 c h2 hsz2 hp2).symm,
   calculateFileSHA256_success fs1 p1 sz1 c h1 hsz1 hp1,
   (sha256HexString_format c).1⟩

/-- Witness for C6: the files `a` and `b` of the sample file system hold
the same bytes and hash identically. -/
theorem calculateFileSHA256_deterministic_witness :
    calculateFileSHA256 fsSample "a" 65 = calculateFileSHA256 fsSample "b" 100 ∧
    calculateFileSHA256 fsSample "a" 65 = (BRIDGE_SUCCESS, some (sha256HexString [0, 1, 255])) ∧
    (sha256HexString [0, 1, 255]).length = 64 :=
  calculateFileSHA256_deterministic fsSample fsSample "a" "b" 65 100 [0, 1, 255]
    (by decide) (by decide) (by decide) (by decide) (by decide) (by decide)

end Truely
